import Mathlib

/-
  Verification development for the mcp-gcloud-adc proxy core.

  Shallow embedding of:
  - src/libs/auth/google-auth.ts        (token manager)
  - src/usecase/mcp-proxy/handler.ts    (proxy request/notification handler)
  - src/usecase/mcp-proxy/session-manager.ts (session holder)
  - src/presentation/mcp-proxy-handlers.ts   (error translator / validators)

  JavaScript values that flow through the handler are modelled by a small
  JSON datatype; `await`ed collaborator calls are modelled by oracle
  functions returning `Except String _`, where `Except.error msg` stands
  for a rejected promise whose Error carries `msg`.
-/

namespace McpGcloudAdc

/-- JSON-like JavaScript values as they flow through the proxy.
Numbers are modelled as integers (no claim depends on fractional values). -/
inductive Json where
  | null : Json
  | bool : Bool → Json
  | num : Int → Json
  | str : String → Json
  | arr : List Json → Json
  | obj : List (String × Json) → Json

/-- First-match field lookup in an object field list (JS property read). -/
def lookupField : List (String × Json) → String → Option Json
  | [], _ => none
  | (k, v) :: rest, key => if k == key then some v else lookupField rest key

/-- Property read `j[key]`: some value for objects that have the key, none otherwise
(reading a property of a non-object or a missing key yields undefined). -/
def Json.getField : Json → String → Option Json
  | Json.obj fields, key => lookupField fields key
  | _, _ => none

/-- The JS `key in obj` test, restricted to our Json model. -/
def Json.hasField (j : Json) (key : String) : Bool :=
  (j.getField key).isSome

/-- JavaScript truthiness of a Json value. -/
def Json.truthy : Json → Bool
  | Json.null => false
  | Json.bool b => b
  | Json.num n => !(n == 0)
  | Json.str s => !(s == "")
  | Json.arr _ => true
  | Json.obj _ => true

/-- Does `j.getField key` hold exactly the string `v` (JS strict equality with a
string literal, false for missing keys and non-string values)? -/
def Json.fieldEqStr (j : Json) (key v : String) : Bool :=
  match j.getField key with
  | some (Json.str s) => s == v
  | _ => false

/-- JavaScript truthiness of a `string | null | undefined` value
(none and the empty string are falsy). -/
def jsTruthyStr : Option String → Bool
  | some s => !(s == "")
  | none => false

/-- The JS expression `a || b` on `string | undefined` values. -/
def jsOrStr (a b : Option String) : Option String :=
  if jsTruthyStr a then a else b

/-- Exact-key record lookup `record[key]` for `Record<string, string>`. -/
def lookupHeader : List (String × String) → String → Option String
  | [], _ => none
  | (k, v) :: rest, key => if k == key then some v else lookupHeader rest key

/-! ## Auth types (src/libs/auth/types.ts) -/

/-- AuthError from src/libs/auth/types.ts. -/
inductive AuthError where
  | noCredentials (message : String)
  | invalidAudience (message : String)
  | tokenFetchFailed (message : String)
  | invalidToken (message : String)
deriving DecidableEq

/-- The message carried by an AuthError. -/
def AuthError.message : AuthError → String
  | .noCredentials m => m
  | .invalidAudience m => m
  | .tokenFetchFailed m => m
  | .invalidToken m => m

/-- The kind tag of an AuthError, as serialized in error data. -/
def AuthError.kind : AuthError → String
  | .noCredentials _ => "no-credentials"
  | .invalidAudience _ => "invalid-audience"
  | .tokenFetchFailed _ => "token-fetch-failed"
  | .invalidToken _ => "invalid-token"

/-- An AuthError as a Json object (its shape when attached as error data). -/
def authErrorToJson (e : AuthError) : Json :=
  Json.obj [("kind", Json.str e.kind), ("message", Json.str e.message)]

/-- GetIdTokenResult from src/libs/auth/types.ts. Timestamps are epoch
milliseconds (JS Date values). -/
inductive GetIdTokenResult where
  | success (token : String) (expiresAt : Int)
  | error (e : AuthError)
deriving DecidableEq

/-- A cached token entry (TokenCache values from src/libs/auth/types.ts). -/
structure CachedToken where
  token : String
  expiresAt : Int
deriving DecidableEq

/-- The token cache: an association list keyed by audience, modelling the
plain-object TokenCache of google-auth.ts. -/
abbrev TokenCache := List (String × CachedToken)

/-- Cache read `state.tokenCache[audience]` (getCachedToken in google-auth.ts). -/
def getCachedToken : TokenCache → String → Option CachedToken
  | [], _ => none
  | (k, v) :: rest, key => if k == key then some v else getCachedToken rest key

/-- Cache write `state.tokenCache[audience] = entry` (replace or add). -/
def setCachedToken : TokenCache → String → CachedToken → TokenCache
  | [], key, entry => [(key, entry)]
  | (k, v) :: rest, key, entry =>
      if k == key then (key, entry) :: rest else (k, v) :: setCachedToken rest key entry

/-- Cache eviction `delete state.tokenCache[audience]`. -/
def removeCachedToken : TokenCache → String → TokenCache
  | [], _ => []
  | (k, v) :: rest, key =>
      if k == key then removeCachedToken rest key else (k, v) :: removeCachedToken rest key

/-! ## URL scheme validation (isValidAudience in google-auth.ts) -/

/-- Characters before the first colon of a string, or none when the string has
no colon (in which case the URL constructor throws). -/
def takeUntilColon : List Char → Option (List Char)
  | [] => none
  | c :: rest => if c == ':' then some [] else (takeUntilColon rest).map (fun l => c :: l)

/-- Models the scheme extraction of the platform URL constructor used by
isValidAudience: `new URL(audience).protocol` is the lowercased scheme
(the characters before the first colon, required to be a letter followed by
letters, digits, plus, minus or dot) followed by a colon; the constructor
throws for inputs that do not start with such a scheme. -/
def urlScheme (url : String) : Option String :=
  match takeUntilColon url.toList with
  | none => none
  | some [] => none
  | some (c :: rest) =>
      if c.isAlpha && rest.all (fun ch => ch.isAlphanum || ch == '+' || ch == '-' || ch == '.') then
        some (String.mk ((c :: rest).map Char.toLower))
      else none

/-- isValidAudience from google-auth.ts: the audience must parse as a URL and
its protocol must be "https:". -/
def isValidAudience (audience : String) : Bool :=
  urlScheme audience == some "https"

/-! ## Token expiry extraction (extractTokenExpiration in google-auth.ts) -/

/-- Models the single-character split `token.split(".")` over a char list,
accumulating the current segment. -/
def splitOnDotAux : List Char → List Char → List String
  | [], acc => [String.mk acc.reverse]
  | c :: rest, acc =>
      if c == '.' then String.mk acc.reverse :: splitOnDotAux rest []
      else splitOnDotAux rest (c :: acc)

/-- Models the JS `token.split(".")`. -/
def splitOnDot (s : String) : List String :=
  splitOnDotAux s.toList []

/-- extractTokenExpiration from google-auth.ts. `decodePayload` models the
platform pair `Buffer.from(part, "base64").toString()` + `JSON.parse`: it
returns the parsed payload of the JWT's second segment, or none when
JSON.parse throws. `now` is `Date.now()` in milliseconds; the result is an
epoch-millisecond timestamp (a JS Date value). -/
def extractTokenExpiration (decodePayload : String → Option Json) (token : String)
    (now : Int) : Int :=
  let parts := splitOnDot token
  if parts.length != 3 then now + 60 * 60 * 1000
  else
    match parts[1]? with
    | none => now + 60 * 60 * 1000
    | some payloadPart =>
      if payloadPart == "" then now + 60 * 60 * 1000
      else
        match decodePayload payloadPart with
        | none => now + 60 * 60 * 1000
        | some payload =>
          match payload.getField "exp" with
          | some (Json.num e) => e * 1000
          | _ => now + 60 * 60 * 1000

/-! ## Token fetching (fetchNewToken / getIdToken in google-auth.ts) -/

/-- The observable outcome of one interaction with the platform credential
provider inside fetchNewToken: `thrown` models `getClient()` or
`fetchIdToken(audience)` rejecting with an Error carrying the message;
`noClient` models `getClient()` resolving with a falsy client;
`noIdTokenSupport` models a client without a `fetchIdToken` member;
`resolved v` models `fetchIdToken(audience)` resolving with the value `v`
(which at runtime need not be a non-empty string). -/
inductive ProviderOutcome where
  | thrown (message : String)
  | noClient
  | noIdTokenSupport
  | resolved (value : Json)

/-- Result of fetchNewToken: the GetIdTokenResult and the cache afterwards. -/
structure FetchResult where
  result : GetIdTokenResult
  cache : TokenCache

/-- fetchNewToken from google-auth.ts, state-passing form. -/
def fetchNewToken (decodePayload : String → Option Json) (cache : TokenCache)
    (audience : String) (now : Int) (provider : ProviderOutcome) : FetchResult :=
  match provider with
  | .thrown msg =>
      { result := .error (.tokenFetchFailed ("Failed to fetch ID token: " ++ msg)),
        cache := cache }
  | .noClient =>
      { result := .error (.noCredentials
          "No credentials found. Please run \"gcloud auth application-default login\" or set GOOGLE_APPLICATION_CREDENTIALS environment variable."),
        cache := cache }
  | .noIdTokenSupport =>
      { result := .error (.noCredentials
          "The authenticated client does not support ID token generation."),
        cache := cache }
  | .resolved v =>
      match v with
      | Json.str s =>
          if s == "" then
            { result := .error (.invalidToken "Failed to retrieve a valid ID token."),
              cache := cache }
          else
            let expiresAt := extractTokenExpiration decodePayload s now
            { result := .success s expiresAt,
              cache := setCachedToken cache audience { token := s, expiresAt := expiresAt } }
      | _ =>
          { result := .error (.invalidToken "Failed to retrieve a valid ID token."),
            cache := cache }

/-- isTokenValid from google-auth.ts: the cached expiry must exceed now by
more than the 5-minute buffer. -/
def isTokenValid (expiresAt now : Int) : Bool :=
  expiresAt - now > 5 * 60 * 1000

/-- Result of getIdToken: the GetIdTokenResult, the cache afterwards, and how
many provider fetches the call performed (0 or 1). -/
structure AuthCallResult where
  result : GetIdTokenResult
  cache : TokenCache
  fetches : Nat

/-- getIdToken from google-auth.ts, state-passing form: validate the audience,
consult the cache, and fetch a new token on miss or near-expiry. -/
def getIdToken (decodePayload : String → Option Json) (cache : TokenCache)
    (audience : String) (now : Int) (provider : ProviderOutcome) : AuthCallResult :=
  if !(isValidAudience audience) then
    { result := .error (.invalidAudience
        ("Invalid audience: " ++ audience ++ ". Must be a valid HTTPS URL.")),
      cache := cache, fetches := 0 }
  else
    match getCachedToken cache audience with
    | some cached =>
        if isTokenValid cached.expiresAt now then
          { result := .success cached.token cached.expiresAt, cache := cache, fetches := 0 }
        else
          let f := fetchNewToken decodePayload cache audience now provider
          { result := f.result, cache := f.cache, fetches := 1 }
    | none =>
        let f := fetchNewToken decodePayload cache audience now provider
        { result := f.result, cache := f.cache, fetches := 1 }

/-- refreshToken from google-auth.ts: evict the cache entry, then getIdToken. -/
def refreshToken (decodePayload : String → Option Json) (cache : TokenCache)
    (audience : String) (now : Int) (provider : ProviderOutcome) : AuthCallResult :=
  getIdToken decodePayload (removeCachedToken cache audience) audience now provider

/-! ## HTTP transport result types (src/libs/http/types.ts) -/

/-- HttpError from src/libs/http/types.ts. The optional originalError and
parse details are omitted: the handler only reads kind, status, message and
body. -/
inductive HttpError where
  | networkError (message : String)
  | timeout (message : String)
  | httpError (status : Nat) (message : String) (body : Option String)
  | parseError (message : String)

/-- The kind tag of an HttpError, as carried in translated error data. -/
def HttpError.kindTag : HttpError → String
  | .networkError _ => "network-error"
  | .timeout _ => "timeout"
  | .httpError _ _ _ => "http-error"
  | .parseError _ => "parse-error"

/-- HttpRequestConfig from src/libs/http/types.ts: the argument the handler
passes to httpClient.post. -/
structure HttpRequestConfig where
  url : String
  headers : List (String × String)
  body : Json
  timeout : Int

/-- HttpResponse from src/libs/http/types.ts. -/
inductive HttpResponse where
  | success (data : Json) (status : Nat) (headers : List (String × String))
  | error (e : HttpError)

/-! ## Error translator and validators (src/presentation/mcp-proxy-handlers.ts) -/

/-- isValidJSONRPCResponse from mcp-proxy-handlers.ts: the body must be a
truthy object whose jsonrpc property is exactly "2.0", which has an id key,
and which has a result or an error key. (Arrays pass the typeof-object test
in JS but fail the jsonrpc check, so they are rejected here as there.) -/
def isValidJSONRPCResponse (data : Json) : Bool :=
  match data with
  | Json.obj _ =>
      data.fieldEqStr "jsonrpc" "2.0"
      && data.hasField "id"
      && (data.hasField "result" || data.hasField "error")
  | _ => false

/-- createErrorResponse from mcp-proxy-handlers.ts. The data field is attached
only when the data argument is present and truthy (the JS `if (data)` guard). -/
def createErrorResponse (id : Json) (code : Int) (message : String)
    (data : Option Json) : Json :=
  let baseError := [("code", Json.num code), ("message", Json.str message)]
  let errorFields :=
    match data with
    | some d => if d.truthy then baseError ++ [("data", d)] else baseError
    | none => baseError
  Json.obj [("jsonrpc", Json.str "2.0"), ("id", id), ("error", Json.obj errorFields)]

/-- mapHttpStatusToJsonRpcCode from mcp-proxy-handlers.ts. -/
def mapHttpStatusToJsonRpcCode (status : Nat) : Int :=
  if status == 401 || status == 403 then -32002
  else if status == 404 then -32601
  else if 400 ≤ status && status < 500 then -32602
  else if 500 ≤ status then -32603
  else -32603

/-- createErrorResponseFromHttpError from mcp-proxy-handlers.ts. -/
def createErrorResponseFromHttpError (id : Json) (httpError : HttpError) : Json :=
  match httpError with
  | .networkError m =>
      createErrorResponse id (-32603) ("Network error: " ++ m)
        (some (Json.obj [("kind", Json.str "network-error")]))
  | .timeout m =>
      createErrorResponse id (-32603) ("Request timeout: " ++ m)
        (some (Json.obj [("kind", Json.str "timeout")]))
  | .httpError status m body =>
      createErrorResponse id (mapHttpStatusToJsonRpcCode status) ("HTTP error: " ++ m)
        (some (Json.obj ([("kind", Json.str "http-error"), ("status", Json.num status)] ++
          (match body with
           | some b => [("body", Json.str b)]
           | none => []))))
  | .parseError m =>
      createErrorResponse id (-32700) ("Parse error: " ++ m)
        (some (Json.obj [("kind", Json.str "parse-error")]))

/-- createInternalErrorResponse from mcp-proxy-handlers.ts, for a caught
exception whose Error message is `errMessage`; the thrown Error object itself
is attached as data (modelled by an object carrying its message, which is
always truthy, as an Error object is). -/
def createInternalErrorResponse (id : Json) (errMessage : String) : Json :=
  createErrorResponse id (-32603) ("Internal error: " ++ errMessage)
    (some (Json.obj [("message", Json.str errMessage)]))

/-- createAuthErrorResponse from mcp-proxy-handlers.ts. -/
def createAuthErrorResponse (id : Json) (message : String) (error : Option Json) : Json :=
  createErrorResponse id (-32603) ("Authentication failed: " ++ message) error

/-- createInvalidResponseErrorResponse from mcp-proxy-handlers.ts. -/
def createInvalidResponseErrorResponse (id : Json) (responseData : Json) : Json :=
  createErrorResponse id (-32603) "Invalid response format from target server"
    (some (Json.obj [("received", responseData)]))

/-- validateJSONRPCResponse from mcp-proxy-handlers.ts. -/
def validateJSONRPCResponse (data : Json) : Option Json :=
  if isValidJSONRPCResponse data then some data else none

/-- isJSONRPCRequest from mcp-proxy-handlers.ts: has a method and an id key. -/
def isJSONRPCRequest (message : Json) : Bool :=
  message.hasField "method" && message.hasField "id"

/-- isJSONRPCNotification from mcp-proxy-handlers.ts: has a method key and no
id key. -/
def isJSONRPCNotification (message : Json) : Bool :=
  message.hasField "method" && !(message.hasField "id")

/-! ## Session manager (src/usecase/mcp-proxy/session-manager.ts)

The session manager closes over a single `string | null` slot; in this
state-passing embedding the slot is an `Option String` threaded explicitly. -/

/-- getSessionId from session-manager.ts. -/
def getSessionId (session : Option String) : Option String := session

/-- setSessionId from session-manager.ts. -/
def setSessionId (_session : Option String) (newSessionId : String) : Option String :=
  some newSessionId

/-- clearSession from session-manager.ts. -/
def clearSession (_session : Option String) : Option String := none

/-! ## Proxy handler (src/usecase/mcp-proxy/handler.ts) -/

/-- ProxyConfig's plain-data part (targetUrl, timeout); the authClient,
httpClient and sessionManager collaborators are passed separately as oracles
and threaded state. -/
structure ProxyConfig where
  targetUrl : String
  timeout : Int

/-- The observable outcome of one handleRequest/handleMessage invocation:
the returned message, the session slot afterwards, and the list of
httpClient.post invocations the call made (in order). -/
structure HandleOutcome where
  response : Json
  session : Option String
  calls : List HttpRequestConfig

/-- The base outbound headers built at the top of handleRequest and of the
notification branch of handleMessage. -/
def baseHeaders : List (String × String) :=
  [("Content-Type", "application/json"), ("Accept", "application/json, text/event-stream")]

/-- The headers after the `if (sessionId)` step: a truthy session id is added
under the Mcp-Session-Id key. -/
def headersWithSession (session : Option String) : List (String × String) :=
  match getSessionId session with
  | some sessionId =>
      if !(sessionId == "") then baseHeaders ++ [("Mcp-Session-Id", sessionId)]
      else baseHeaders
  | none => baseHeaders

/-- handleRequest from handler.ts, state-passing form. `auth` models
`config.authClient.getIdToken` and `post` models `config.httpClient.post`;
an `Except.error msg` from either models a rejected promise reaching the
surrounding catch, which produces the internal-error response. -/
def handleRequest (config : ProxyConfig) (session : Option String)
    (auth : String → Except String GetIdTokenResult)
    (post : HttpRequestConfig → Except String HttpResponse)
    (request : Json) : HandleOutcome :=
  let reqId := (request.getField "id").getD Json.null
  let headers := headersWithSession session
  match auth config.targetUrl with
  | Except.error msg =>
      { response := createInternalErrorResponse reqId msg, session := session, calls := [] }
  | Except.ok (GetIdTokenResult.error e) =>
      { response := createAuthErrorResponse reqId e.message (some (authErrorToJson e)),
        session := session, calls := [] }
  | Except.ok (GetIdTokenResult.success token _expiresAt) =>
      let call : HttpRequestConfig :=
        { url := config.targetUrl,
          headers := headers ++ [("Authorization", "Bearer " ++ token)],
          body := request, timeout := config.timeout }
      match post call with
      | Except.error msg =>
          { response := createInternalErrorResponse reqId msg, session := session,
            calls := [call] }
      | Except.ok (HttpResponse.error httpErr) =>
          let session2 :=
            match httpErr with
            | HttpError.httpError 404 _ _ => clearSession session
            | _ => session
          { response := createErrorResponseFromHttpError reqId httpErr,
            session := session2, calls := [call] }
      | Except.ok (HttpResponse.success data _status respHeaders) =>
          let session2 :=
            if request.fieldEqStr "method" "initialize" then
              match jsOrStr (lookupHeader respHeaders "mcp-session-id")
                  (lookupHeader respHeaders "Mcp-Session-Id") with
              | some responseSessionId =>
                  if !(responseSessionId == "") then setSessionId session responseSessionId
                  else session
              | none => session
            else session
          match validateJSONRPCResponse data with
          | none =>
              { response := createInvalidResponseErrorResponse reqId data,
                session := session2, calls := [call] }
          | some validatedResponse =>
              { response := validatedResponse, session := session2, calls := [call] }

/-- handleMessage from handler.ts, state-passing form: requests are routed to
handleRequest; notification-shaped messages are forwarded with every failure
swallowed (the original notification is always returned); anything else
passes through untouched. -/
def handleMessage (config : ProxyConfig) (session : Option String)
    (auth : String → Except String GetIdTokenResult)
    (post : HttpRequestConfig → Except String HttpResponse)
    (message : Json) : HandleOutcome :=
  if isJSONRPCRequest message then
    handleRequest config session auth post message
  else if isJSONRPCNotification message then
    let headers := headersWithSession session
    match auth config.targetUrl with
    | Except.error _msg =>
        { response := message, session := session, calls := [] }
    | Except.ok (GetIdTokenResult.error _e) =>
        { response := message, session := session, calls := [] }
    | Except.ok (GetIdTokenResult.success token _expiresAt) =>
        let call : HttpRequestConfig :=
          { url := config.targetUrl,
            headers := headers ++ [("Authorization", "Bearer " ++ token)],
            body := message, timeout := config.timeout }
        match post call with
        | Except.error _msg =>
            { response := message, session := session, calls := [call] }
        | Except.ok (HttpResponse.error (HttpError.httpError 404 _ _)) =>
            { response := message, session := clearSession session, calls := [call] }
        | Except.ok _ =>
            { response := message, session := session, calls := [call] }
  else
    { response := message, session := session, calls := [] }

/-! ## Accessors used by the theorems -/

/-- The field `k` of the error member of a JSON-RPC error response. -/
def Json.errorField (j : Json) (k : String) : Option Json :=
  match j.getField "error" with
  | some e => e.getField k
  | none => none

/-- The numeric code of a JSON-RPC error response, when present. -/
def Json.errorCode (j : Json) : Option Int :=
  match j.errorField "code" with
  | some (Json.num c) => some c
  | _ => none

/-- The message of a JSON-RPC error response, when present. -/
def Json.errorMessage (j : Json) : Option String :=
  match j.errorField "message" with
  | some (Json.str m) => some m
  | _ => none

/-- The data member of a JSON-RPC error response, when present. -/
def Json.errorData (j : Json) : Option Json :=
  j.errorField "data"

/-- Is this Json value an object? -/
def Json.isObj : Json → Bool
  | Json.obj _ => true
  | _ => false

/-! ## Helper lemmas -/

/-- The outbound header list built by the handler holds the session id under
Mcp-Session-Id exactly when the threaded session id is truthy. -/
theorem lookupHeader_headersWithSession (session : Option String) (v : String) :
    lookupHeader (headersWithSession session ++ [("Authorization", v)]) "Mcp-Session-Id"
      = (if jsTruthyStr session then session else none) := by
  cases session with
  | none => rfl
  | some s =>
      by_cases h : s = ""
      · subst h; rfl
      · simp [headersWithSession, getSessionId, jsTruthyStr, h, lookupHeader, baseHeaders]

/-- Every httpClient.post invocation performed by handleRequest posts the
request body to the target URL with the session-augmented headers plus a
bearer Authorization header. -/
theorem handleRequest_calls_shape (config : ProxyConfig) (session : Option String)
    (auth : String → Except String GetIdTokenResult)
    (post : HttpRequestConfig → Except String HttpResponse) (request : Json) :
    (handleRequest config session auth post request).calls = []
    ∨ ∃ token, (handleRequest config session auth post request).calls
        = [{ url := config.targetUrl,
             headers := headersWithSession session ++ [("Authorization", "Bearer " ++ token)],
             body := request, timeout := config.timeout }] := by
  simp only [handleRequest]
  split
  · exact Or.inl rfl
  · exact Or.inl rfl
  · rename_i token xp _
    split
    · exact Or.inr ⟨token, rfl⟩
    · exact Or.inr ⟨token, rfl⟩
    · split
      · exact Or.inr ⟨token, rfl⟩
      · exact Or.inr ⟨token, rfl⟩

/-- Every httpClient.post invocation performed by handleRequest carries the
threaded session id in its Mcp-Session-Id header exactly when that id is
truthy, and no session header otherwise. -/
theorem handleRequest_session_header (config : ProxyConfig) (session : Option String)
    (auth : String → Except String GetIdTokenResult)
    (post : HttpRequestConfig → Except String HttpResponse) (request : Json) :
    ∀ c ∈ (handleRequest config session auth post request).calls,
      lookupHeader c.headers "Mcp-Session-Id"
        = (if jsTruthyStr session then session else none) := by
  intro c hc
  rcases handleRequest_calls_shape config session auth post request with h | ⟨token, h⟩
  · rw [h] at hc; simp at hc
  · rw [h] at hc
    simp only [List.mem_singleton] at hc
    subst hc
    exact lookupHeader_headersWithSession session ("Bearer " ++ token)

/-- Reading back the cache entry just written by setCachedToken. -/
theorem getCachedToken_setCachedToken (cache : TokenCache) (key : String)
    (entry : CachedToken) :
    getCachedToken (setCachedToken cache key entry) key = some entry := by
  induction cache with
  | nil => simp [setCachedToken, getCachedToken]
  | cons kv rest ih =>
      obtain ⟨k, v⟩ := kv
      by_cases h : k = key
      · simp [setCachedToken, getCachedToken, h]
      · simp [setCachedToken, getCachedToken, h, ih]

/-! ## Claim C1 -/

/-- C1: for every inbound request, if the token manager's getIdToken for the
configured target URL returns an error, handleRequest makes no HTTP POST call
(zero httpClient.post invocations) and returns a JSON-RPC error response with
code -32603 whose message starts with "Authentication failed: ". -/
theorem c1_auth_failure_short_circuit (config : ProxyConfig) (session : Option String)
    (auth : String → Except String GetIdTokenResult)
    (post : HttpRequestConfig → Except String HttpResponse)
    (request : Json) (e : AuthError)
    (hauth : auth config.targetUrl = Except.ok (GetIdTokenResult.error e)) :
    (handleRequest config session auth post request).calls = []
    ∧ (handleRequest config session auth post request).response.errorCode = some (-32603)
    ∧ ∃ rest, (handleRequest config session auth post request).response.errorMessage
        = some ("Authentication failed: " ++ rest) := by
  refine ⟨?_, ?_, e.message, ?_⟩ <;>
    simp [handleRequest, hauth, createAuthErrorResponse, createErrorResponse,
      authErrorToJson, Json.truthy, Json.errorCode, Json.errorMessage, Json.errorField,
      Json.getField, lookupField]

/-- Witness for C1 at a concrete configuration, request and auth failure. -/
theorem c1_auth_failure_short_circuit_witness :
    (handleRequest ⟨"https://example.com", 5000⟩ none
        (fun _ => Except.ok (GetIdTokenResult.error (AuthError.noCredentials "no ADC")))
        (fun _ => Except.ok (HttpResponse.error (HttpError.timeout "t")))
        (Json.obj [("jsonrpc", Json.str "2.0"), ("id", Json.num 1),
          ("method", Json.str "tools/list")])).calls = []
    ∧ (handleRequest ⟨"https://example.com", 5000⟩ none
        (fun _ => Except.ok (GetIdTokenResult.error (AuthError.noCredentials "no ADC")))
        (fun _ => Except.ok (HttpResponse.error (HttpError.timeout "t")))
        (Json.obj [("jsonrpc", Json.str "2.0"), ("id", Json.num 1),
          ("method", Json.str "tools/list")])).response.errorCode = some (-32603)
    ∧ ∃ rest, (handleRequest ⟨"https://example.com", 5000⟩ none
        (fun _ => Except.ok (GetIdTokenResult.error (AuthError.noCredentials "no ADC")))
        (fun _ => Except.ok (HttpResponse.error (HttpError.timeout "t")))
        (Json.obj [("jsonrpc", Json.str "2.0"), ("id", Json.num 1),
          ("method", Json.str "tools/list")])).response.errorMessage
        = some ("Authentication failed: " ++ rest) :=
  c1_auth_failure_short_circuit ⟨"https://example.com", 5000⟩ none
    (fun _ => Except.ok (GetIdTokenResult.error (AuthError.noCredentials "no ADC")))
    (fun _ => Except.ok (HttpResponse.error (HttpError.timeout "t")))
    (Json.obj [("jsonrpc", Json.str "2.0"), ("id", Json.num 1),
      ("method", Json.str "tools/list")])
    (AuthError.noCredentials "no ADC") rfl

/-! ## Claim C2 -/

/-- C2 counterexample: for the request with id 1, an upstream body carrying
id 2 (a mismatching id) passes validation and is returned verbatim by
handleRequest; it is not rejected and not converted to the
"Invalid response format from target server" protocol error. -/
theorem c2_counterexample_id_mismatch_passes :
    (handleRequest ⟨"https://example.com", 5000⟩ none
        (fun _ => Except.ok (GetIdTokenResult.success "tok" 0))
        (fun _ => Except.ok (HttpResponse.success
          (Json.obj [("jsonrpc", Json.str "2.0"), ("id", Json.num 2), ("result", Json.null)])
          200 []))
        (Json.obj [("jsonrpc", Json.str "2.0"), ("id", Json.num 1),
          ("method", Json.str "tools/list")])).response
      = Json.obj [("jsonrpc", Json.str "2.0"), ("id", Json.num 2), ("result", Json.null)]
    ∧ (handleRequest ⟨"https://example.com", 5000⟩ none
        (fun _ => Except.ok (GetIdTokenResult.success "tok" 0))
        (fun _ => Except.ok (HttpResponse.success
          (Json.obj [("jsonrpc", Json.str "2.0"), ("id", Json.num 2), ("result", Json.null)])
          200 []))
        (Json.obj [("jsonrpc", Json.str "2.0"), ("id", Json.num 1),
          ("method", Json.str "tools/list")])).response.errorMessage = none :=
  ⟨rfl, rfl⟩

/-- C2 amended: handleRequest validates only the JSON-RPC envelope shape of
the upstream body — jsonrpc equal to "2.0", an id field present, and a result
or an error field; the response id is never compared with the request id, so
a valid-shaped body with a different id is returned verbatim. A body failing
the shape check is converted to the "Invalid response format from target
server" protocol error (code -32603) with the raw payload in data. -/
theorem c2_amended_envelope_shape_validation (config : ProxyConfig)
    (session : Option String)
    (auth : String → Except String GetIdTokenResult)
    (post : HttpRequestConfig → Except String HttpResponse)
    (request : Json) (token : String) (xp : Int) (d : Json) (st : Nat)
    (rh : List (String × String))
    (hauth : auth config.targetUrl = Except.ok (GetIdTokenResult.success token xp))
    (hpost : ∀ c, post c = Except.ok (HttpResponse.success d st rh)) :
    (isValidJSONRPCResponse d = true →
        (handleRequest config session auth post request).response = d)
    ∧ (isValidJSONRPCResponse d = false →
        (handleRequest config session auth post request).response.errorCode = some (-32603)
        ∧ (handleRequest config session auth post request).response.errorMessage
            = some "Invalid response format from target server"
        ∧ (handleRequest config session auth post request).response.errorData
            = some (Json.obj [("received", d)]))
    ∧ isValidJSONRPCResponse d
        = (d.isObj && (d.fieldEqStr "jsonrpc" "2.0" && d.hasField "id"
            && (d.hasField "result" || d.hasField "error"))) := by
  refine ⟨?_, ?_, ?_⟩
  · intro hv
    simp [handleRequest, hauth, hpost, validateJSONRPCResponse, hv]
  · intro hv
    refine ⟨?_, ?_, ?_⟩ <;>
      simp [handleRequest, hauth, hpost, validateJSONRPCResponse, hv,
        createInvalidResponseErrorResponse, createErrorResponse, Json.truthy,
        Json.errorCode, Json.errorMessage, Json.errorData, Json.errorField,
        Json.getField, lookupField]
  · cases d <;> simp [isValidJSONRPCResponse, Json.isObj]

/-- Witness for C2's amended theorem: a shape-valid body is passed through and
a shape-invalid body is converted, at concrete inputs. -/
theorem c2_amended_envelope_shape_validation_witness :
    (isValidJSONRPCResponse (Json.obj [("jsonrpc", Json.str "2.0"), ("id", Json.num 7),
        ("result", Json.null)]) = true →
      (handleRequest ⟨"https://example.com", 5000⟩ none
        (fun _ => Except.ok (GetIdTokenResult.success "tok" 0))
        (fun _ => Except.ok (HttpResponse.success
          (Json.obj [("jsonrpc", Json.str "2.0"), ("id", Json.num 7), ("result", Json.null)])
          200 []))
        (Json.obj [("jsonrpc", Json.str "2.0"), ("id", Json.num 7),
          ("method", Json.str "tools/list")])).response
        = Json.obj [("jsonrpc", Json.str "2.0"), ("id", Json.num 7), ("result", Json.null)])
    ∧ (isValidJSONRPCResponse (Json.obj [("jsonrpc", Json.str "2.0"), ("id", Json.num 7),
        ("result", Json.null)]) = false →
      (handleRequest ⟨"https://example.com", 5000⟩ none
        (fun _ => Except.ok (GetIdTokenResult.success "tok" 0))
        (fun _ => Except.ok (HttpResponse.success
          (Json.obj [("jsonrpc", Json.str "2.0"), ("id", Json.num 7), ("result", Json.null)])
          200 []))
        (Json.obj [("jsonrpc", Json.str "2.0"), ("id", Json.num 7),
          ("method", Json.str "tools/list")])).response.errorCode = some (-32603)
      ∧ (handleRequest ⟨"https://example.com", 5000⟩ none
        (fun _ => Except.ok (GetIdTokenResult.success "tok" 0))
        (fun _ => Except.ok (HttpResponse.success
          (Json.obj [("jsonrpc", Json.str "2.0"), ("id", Json.num 7), ("result", Json.null)])
          200 []))
        (Json.obj [("jsonrpc", Json.str "2.0"), ("id", Json.num 7),
          ("method", Json.str "tools/list")])).response.errorMessage
          = some "Invalid response format from target server"
      ∧ (handleRequest ⟨"https://example.com", 5000⟩ none
        (fun _ => Except.ok (GetIdTokenResult.success "tok" 0))
        (fun _ => Except.ok (HttpResponse.success
          (Json.obj [("jsonrpc", Json.str "2.0"), ("id", Json.num 7), ("result", Json.null)])
          200 []))
        (Json.obj [("jsonrpc", Json.str "2.0"), ("id", Json.num 7),
          ("method", Json.str "tools/list")])).response.errorData
          = some (Json.obj [("received",
              Json.obj [("jsonrpc", Json.str "2.0"), ("id", Json.num 7),
                ("result", Json.null)])]))
    ∧ isValidJSONRPCResponse (Json.obj [("jsonrpc", Json.str "2.0"), ("id", Json.num 7),
        ("result", Json.null)])
        = ((Json.obj [("jsonrpc", Json.str "2.0"), ("id", Json.num 7),
            ("result", Json.null)]).isObj
          && ((Json.obj [("jsonrpc", Json.str "2.0"), ("id", Json.num 7),
              ("result", Json.null)]).fieldEqStr "jsonrpc" "2.0"
            && (Json.obj [("jsonrpc", Json.str "2.0"), ("id", Json.num 7),
              ("result", Json.null)]).hasField "id"
            && ((Json.obj [("jsonrpc", Json.str "2.0"), ("id", Json.num 7),
              ("result", Json.null)]).hasField "result"
              || (Json.obj [("jsonrpc", Json.str "2.0"), ("id", Json.num 7),
                ("result", Json.null)]).hasField "error"))) :=
  c2_amended_envelope_shape_validation ⟨"https://example.com", 5000⟩ none
    (fun _ => Except.ok (GetIdTokenResult.success "tok" 0))
    (fun _ => Except.ok (HttpResponse.success
      (Json.obj [("jsonrpc", Json.str "2.0"), ("id", Json.num 7), ("result", Json.null)])
      200 []))
    (Json.obj [("jsonrpc", Json.str "2.0"), ("id", Json.num 7),
      ("method", Json.str "tools/list")])
    "tok" 0
    (Json.obj [("jsonrpc", Json.str "2.0"), ("id", Json.num 7), ("result", Json.null)])
    200 [] rfl (fun _ => rfl)

/-! ## Claim C3 -/

/-- C3 counterexample: when the credential provider resolves with an unusable
(non-string) token value, getToken fails with the invalid-token variant, not
with token-fetch-failed as the claim states. -/
theorem c3_counterexample_unusable_value_is_invalid_token :
    (getIdToken (fun _ => none) [] "https://example.com" 0
        (ProviderOutcome.resolved (Json.num 5))).result
      = GetIdTokenResult.error (AuthError.invalidToken "Failed to retrieve a valid ID token.")
    ∧ (getIdToken (fun _ => none) [] "https://example.com" 0
        (ProviderOutcome.resolved (Json.num 5))).result
      ≠ GetIdTokenResult.error (AuthError.tokenFetchFailed "Failed to retrieve a valid ID token.") :=
  ⟨rfl, by decide⟩

/-- C3 amended: for every audience on which a fetch occurs — a cache miss or
a stale (buffer-violating) cached entry — a credential provider call that
throws makes getToken fail with the token-fetch-failed variant, while a
provider call that resolves with an unusable (falsy or non-string) token
value makes it fail with the invalid-token variant. -/
theorem c3_amended_provider_failure_variants (decodePayload : String → Option Json)
    (cache : TokenCache) (audience : String) (now : Int) (msg : String) (v : Json)
    (c : CachedToken)
    (hvalid : isValidAudience audience = true)
    (hfetch : getCachedToken cache audience = none
      ∨ (getCachedToken cache audience = some c ∧ isTokenValid c.expiresAt now = false)) :
    (getIdToken decodePayload cache audience now (ProviderOutcome.thrown msg)).result
      = GetIdTokenResult.error
          (AuthError.tokenFetchFailed ("Failed to fetch ID token: " ++ msg))
    ∧ ((v.truthy = false ∨ ∀ s, v ≠ Json.str s) →
        (getIdToken decodePayload cache audience now (ProviderOutcome.resolved v)).result
          = GetIdTokenResult.error
              (AuthError.invalidToken "Failed to retrieve a valid ID token.")) := by
  have hred : ∀ provider : ProviderOutcome,
      (getIdToken decodePayload cache audience now provider).result
        = (fetchNewToken decodePayload cache audience now provider).result := by
    intro provider
    rcases hfetch with hmiss | ⟨hcache, hstale⟩
    · simp [getIdToken, hvalid, hmiss]
    · simp [getIdToken, hvalid, hcache, hstale]
  constructor
  · rw [hred]
    simp [fetchNewToken]
  · intro hv
    rw [hred]
    cases v with
    | str s =>
        rcases hv with hfalsy | hnost
        · have hs : s = "" := by
            simpa [Json.truthy] using hfalsy
          simp [fetchNewToken, hs]
        · exact absurd rfl (hnost s)
    | null => simp [fetchNewToken]
    | bool b => simp [fetchNewToken]
    | num n => simp [fetchNewToken]
    | arr xs => simp [fetchNewToken]
    | obj fields => simp [fetchNewToken]

/-- Witness for C3's amended theorem: a thrown provider call and an unusable
numeric token value, at a concrete audience whose cached entry is stale (the
refresh scenario: expiry 1000 ms, now 0, inside the 5-minute buffer). -/
theorem c3_amended_provider_failure_variants_witness :
    (getIdToken (fun _ => none) [("https://example.com", ⟨"old", 1000⟩)]
        "https://example.com" 0 (ProviderOutcome.thrown "ECONNRESET")).result
      = GetIdTokenResult.error
          (AuthError.tokenFetchFailed ("Failed to fetch ID token: " ++ "ECONNRESET"))
    ∧ (((Json.num 5).truthy = false ∨ ∀ s, Json.num 5 ≠ Json.str s) →
        (getIdToken (fun _ => none) [("https://example.com", ⟨"old", 1000⟩)]
            "https://example.com" 0 (ProviderOutcome.resolved (Json.num 5))).result
          = GetIdTokenResult.error
              (AuthError.invalidToken "Failed to retrieve a valid ID token.")) :=
  c3_amended_provider_failure_variants (fun _ => none)
    [("https://example.com", ⟨"old", 1000⟩)] "https://example.com" 0
    "ECONNRESET" (Json.num 5) ⟨"old", 1000⟩ (by decide)
    (Or.inr ⟨rfl, by decide⟩)

/-! ## Claim C4 -/

/-- C4: the error translation maps each failure variant to exactly the
specified JSON-RPC code — any AuthError to -32603 with message prefix
"Authentication failed: "; http-status 401 or 403 to -32002; 404 to -32601;
other 400 to 499 to -32602; 500 to 599 to -32603; network to -32603 with
prefix "Network error: "; timeout to -32603 with prefix "Request timeout: ";
parse to -32700 with prefix "Parse error: "; http-status errors carry prefix
"HTTP error: " and include the numeric status and raw body in data. -/
theorem c4_error_code_table (id : Json) (m : String) (s : Nat) (b : String)
    (authMsg : String) (d : Option Json) :
    (createAuthErrorResponse id authMsg d).errorCode = some (-32603)
    ∧ (createAuthErrorResponse id authMsg d).errorMessage
        = some ("Authentication failed: " ++ authMsg)
    ∧ ((s = 401 ∨ s = 403) → mapHttpStatusToJsonRpcCode s = -32002)
    ∧ (s = 404 → mapHttpStatusToJsonRpcCode s = -32601)
    ∧ ((400 ≤ s ∧ s < 500 ∧ s ≠ 401 ∧ s ≠ 403 ∧ s ≠ 404) →
        mapHttpStatusToJsonRpcCode s = -32602)
    ∧ ((500 ≤ s ∧ s ≤ 599) → mapHttpStatusToJsonRpcCode s = -32603)
    ∧ (createErrorResponseFromHttpError id (HttpError.networkError m)).errorCode
        = some (-32603)
    ∧ (createErrorResponseFromHttpError id (HttpError.networkError m)).errorMessage
        = some ("Network error: " ++ m)
    ∧ (createErrorResponseFromHttpError id (HttpError.timeout m)).errorCode
        = some (-32603)
    ∧ (createErrorResponseFromHttpError id (HttpError.timeout m)).errorMessage
        = some ("Request timeout: " ++ m)
    ∧ (createErrorResponseFromHttpError id (HttpError.parseError m)).errorCode
        = some (-32700)
    ∧ (createErrorResponseFromHttpError id (HttpError.parseError m)).errorMessage
        = some ("Parse error: " ++ m)
    ∧ (createErrorResponseFromHttpError id (HttpError.httpError s m (some b))).errorCode
        = some (mapHttpStatusToJsonRpcCode s)
    ∧ (createErrorResponseFromHttpError id (HttpError.httpError s m (some b))).errorMessage
        = some ("HTTP error: " ++ m)
    ∧ (createErrorResponseFromHttpError id (HttpError.httpError s m (some b))).errorData
        = some (Json.obj [("kind", Json.str "http-error"), ("status", Json.num s),
            ("body", Json.str b)]) := by
  refine ⟨?_, ?_, ?_, ?_, ?_, ?_, ?_, ?_, ?_, ?_, ?_, ?_, ?_, ?_, ?_⟩
  · cases d with
    | none =>
        simp [createAuthErrorResponse, createErrorResponse, Json.errorCode,
          Json.errorField, Json.getField, lookupField]
    | some dv =>
        cases hdv : dv.truthy <;>
          simp [createAuthErrorResponse, createErrorResponse, hdv, Json.errorCode,
            Json.errorField, Json.getField, lookupField]
  · cases d with
    | none =>
        simp [createAuthErrorResponse, createErrorResponse, Json.errorMessage,
          Json.errorField, Json.getField, lookupField]
    | some dv =>
        cases hdv : dv.truthy <;>
          simp [createAuthErrorResponse, createErrorResponse, hdv, Json.errorMessage,
            Json.errorField, Json.getField, lookupField]
  · intro h
    simp only [mapHttpStatusToJsonRpcCode, Bool.or_eq_true, beq_iff_eq,
      Bool.and_eq_true, decide_eq_true_eq]
    split_ifs with h1 h2 h3 h4 <;> omega
  · intro h
    simp only [mapHttpStatusToJsonRpcCode, Bool.or_eq_true, beq_iff_eq,
      Bool.and_eq_true, decide_eq_true_eq]
    split_ifs with h1 h2 h3 h4 <;> omega
  · intro h
    simp only [mapHttpStatusToJsonRpcCode, Bool.or_eq_true, beq_iff_eq,
      Bool.and_eq_true, decide_eq_true_eq]
    split_ifs with h1 h2 h3 h4 <;> omega
  · intro h
    simp only [mapHttpStatusToJsonRpcCode, Bool.or_eq_true, beq_iff_eq,
      Bool.and_eq_true, decide_eq_true_eq]
    split_ifs with h1 h2 h3 h4 <;> omega
  all_goals
    simp [createErrorResponseFromHttpError, createErrorResponse, Json.truthy,
      Json.errorCode, Json.errorMessage, Json.errorData, Json.errorField,
      Json.getField, lookupField]

/-- Witness for C4 at concrete inputs, discharging each status-range branch
at a representative status. -/
theorem c4_error_code_table_witness :
    mapHttpStatusToJsonRpcCode 401 = -32002
    ∧ mapHttpStatusToJsonRpcCode 403 = -32002
    ∧ mapHttpStatusToJsonRpcCode 404 = -32601
    ∧ mapHttpStatusToJsonRpcCode 418 = -32602
    ∧ mapHttpStatusToJsonRpcCode 503 = -32603
    ∧ (createAuthErrorResponse Json.null "boom" none).errorCode = some (-32603)
    ∧ (createErrorResponseFromHttpError Json.null
        (HttpError.httpError 503 "oops" (some "busy"))).errorData
      = some (Json.obj [("kind", Json.str "http-error"), ("status", Json.num 503),
          ("body", Json.str "busy")]) :=
  ⟨(c4_error_code_table Json.null "m" 401 "b" "boom" none).2.2.1 (Or.inl rfl),
   (c4_error_code_table Json.null "m" 403 "b" "boom" none).2.2.1 (Or.inr rfl),
   (c4_error_code_table Json.null "m" 404 "b" "boom" none).2.2.2.1 rfl,
   (c4_error_code_table Json.null "m" 418 "b" "boom" none).2.2.2.2.1
     ⟨by decide, by decide, by decide, by decide, by decide⟩,
   (c4_error_code_table Json.null "m" 503 "b" "boom" none).2.2.2.2.2.1
     ⟨by decide, by decide⟩,
   (c4_error_code_table Json.null "m" 503 "b" "boom" none).1,
   (c4_error_code_table Json.null "oops" 503 "busy" "boom" none).2.2.2.2.2.2.2.2.2.2.2.2.2.2⟩

/-! ## Claim C5 -/

/-- C5: for any (valid) audience, a getToken call while a cached token
satisfies expiresAt - now > 5 minutes returns the cached token unchanged with
no provider fetch; a call when no cached token exists or the buffer is
violated performs exactly one provider fetch, and on success the new token
replaces the cache entry for that audience. -/
theorem c5_token_cache_reuse (decodePayload : String → Option Json)
    (cache : TokenCache) (audience : String) (now : Int)
    (provider : ProviderOutcome) (c : CachedToken)
    (hvalid : isValidAudience audience = true) :
    (getCachedToken cache audience = some c → isTokenValid c.expiresAt now = true →
        getIdToken decodePayload cache audience now provider
          = { result := GetIdTokenResult.success c.token c.expiresAt,
              cache := cache, fetches := 0 })
    ∧ (getCachedToken cache audience = none →
        (getIdToken decodePayload cache audience now provider).fetches = 1)
    ∧ (getCachedToken cache audience = some c → isTokenValid c.expiresAt now = false →
        (getIdToken decodePayload cache audience now provider).fetches = 1)
    ∧ (∀ s xp, (getCachedToken cache audience = none
          ∨ (getCachedToken cache audience = some c ∧ isTokenValid c.expiresAt now = false)) →
        (getIdToken decodePayload cache audience now provider).result
          = GetIdTokenResult.success s xp →
        getCachedToken (getIdToken decodePayload cache audience now provider).cache audience
          = some { token := s, expiresAt := xp }) := by
  refine ⟨?_, ?_, ?_, ?_⟩
  · intro hcache hfresh
    simp [getIdToken, hvalid, hcache, hfresh]
  · intro hmiss
    simp [getIdToken, hvalid, hmiss]
  · intro hcache hstale
    simp [getIdToken, hvalid, hcache, hstale]
  · intro s xp hfetch hsuccess
    have hfetchres :
        (getIdToken decodePayload cache audience now provider).result
          = (fetchNewToken decodePayload cache audience now provider).result
        ∧ (getIdToken decodePayload cache audience now provider).cache
          = (fetchNewToken decodePayload cache audience now provider).cache := by
      rcases hfetch with hmiss | ⟨hcache, hstale⟩
      · constructor <;> simp [getIdToken, hvalid, hmiss]
      · constructor <;> simp [getIdToken, hvalid, hcache, hstale]
    rw [hfetchres.1] at hsuccess
    rw [hfetchres.2]
    cases provider with
    | thrown msg => simp [fetchNewToken] at hsuccess
    | noClient => simp [fetchNewToken] at hsuccess
    | noIdTokenSupport => simp [fetchNewToken] at hsuccess
    | resolved v =>
        cases v with
        | str tokenStr =>
            by_cases hempty : tokenStr = ""
            · simp [fetchNewToken, hempty] at hsuccess
            · have hbe : (tokenStr == "") = false := by simp [hempty]
              simp only [fetchNewToken, hbe, Bool.false_eq_true, if_false] at hsuccess ⊢
              obtain ⟨hs, hxp⟩ := GetIdTokenResult.success.inj hsuccess
              subst hs
              rw [← hxp]
              exact getCachedToken_setCachedToken cache audience _
        | null => simp [fetchNewToken] at hsuccess
        | bool b => simp [fetchNewToken] at hsuccess
        | num n => simp [fetchNewToken] at hsuccess
        | arr xs => simp [fetchNewToken] at hsuccess
        | obj fields => simp [fetchNewToken] at hsuccess

/-- Witness for C5: a fresh cached token is reused without a fetch, a stale
one triggers exactly one fetch whose result replaces the cache entry. -/
theorem c5_token_cache_reuse_witness :
    (getCachedToken [("https://example.com", ⟨"cached", 1000000⟩)] "https://example.com"
        = some ⟨"cached", 1000000⟩ →
      isTokenValid (1000000 : Int) 0 = true →
      getIdToken (fun _ => none) [("https://example.com", ⟨"cached", 1000000⟩)]
          "https://example.com" 0 (ProviderOutcome.resolved (Json.str "newtok"))
        = { result := GetIdTokenResult.success "cached" 1000000,
            cache := [("https://example.com", ⟨"cached", 1000000⟩)], fetches := 0 })
    ∧ (getCachedToken [("https://example.com", ⟨"cached", 1000000⟩)] "https://example.com"
        = none →
      (getIdToken (fun _ => none) [("https://example.com", ⟨"cached", 1000000⟩)]
          "https://example.com" 0 (ProviderOutcome.resolved (Json.str "newtok"))).fetches = 1)
    ∧ (getCachedToken [("https://example.com", ⟨"cached", 1000000⟩)] "https://example.com"
        = some ⟨"cached", 1000000⟩ →
      isTokenValid (1000000 : Int) 0 = false →
      (getIdToken (fun _ => none) [("https://example.com", ⟨"cached", 1000000⟩)]
          "https://example.com" 0 (ProviderOutcome.resolved (Json.str "newtok"))).fetches = 1)
    ∧ (∀ s xp, (getCachedToken [("https://example.com", ⟨"cached", 1000000⟩)]
            "https://example.com" = none
          ∨ (getCachedToken [("https://example.com", ⟨"cached", 1000000⟩)]
              "https://example.com" = some ⟨"cached", 1000000⟩
            ∧ isTokenValid (1000000 : Int) 0 = false)) →
        (getIdToken (fun _ => none) [("https://example.com", ⟨"cached", 1000000⟩)]
            "https://example.com" 0 (ProviderOutcome.resolved (Json.str "newtok"))).result
          = GetIdTokenResult.success s xp →
        getCachedToken (getIdToken (fun _ => none)
            [("https://example.com", ⟨"cached", 1000000⟩)] "https://example.com" 0
            (ProviderOutcome.resolved (Json.str "newtok"))).cache "https://example.com"
          = some { token := s, expiresAt := xp }) :=
  c5_token_cache_reuse (fun _ => none) [("https://example.com", ⟨"cached", 1000000⟩)]
    "https://example.com" 0 (ProviderOutcome.resolved (Json.str "newtok"))
    ⟨"cached", 1000000⟩ (by decide)

/-! ## Claim C6 -/

/-- C6: an upstream http-status failure with status 404 makes handleRequest
clear the session (the outcome's session is none, so a subsequent request
carries no Mcp-Session-Id header), while the current call still fails and
returns the translated HTTP error (code -32601 for 404). -/
theorem c6_http_404_clears_session (config : ProxyConfig) (session : Option String)
    (request request2 : Json)
    (auth auth2 : String → Except String GetIdTokenResult)
    (post post2 : HttpRequestConfig → Except String HttpResponse)
    (m : String) (b : Option String) (token : String) (xp : Int)
    (hauth : auth config.targetUrl = Except.ok (GetIdTokenResult.success token xp))
    (hpost : ∀ c, post c = Except.ok (HttpResponse.error (HttpError.httpError 404 m b))) :
    (handleRequest config session auth post request).session = none
    ∧ (handleRequest config session auth post request).response
        = createErrorResponseFromHttpError ((request.getField "id").getD Json.null)
            (HttpError.httpError 404 m b)
    ∧ (handleRequest config session auth post request).response.errorCode = some (-32601)
    ∧ (∀ c, c ∈ (handleRequest config
          (handleRequest config session auth post request).session
          auth2 post2 request2).calls →
        lookupHeader c.headers "Mcp-Session-Id" = none) := by
  have hsession : (handleRequest config session auth post request).session = none := by
    simp [handleRequest, hauth, hpost, clearSession]
  refine ⟨hsession, ?_, ?_, ?_⟩
  · simp [handleRequest, hauth, hpost]
  · simp [handleRequest, hauth, hpost, createErrorResponseFromHttpError,
      mapHttpStatusToJsonRpcCode, createErrorResponse, Json.truthy,
      Json.errorCode, Json.errorField, Json.getField, lookupField]
  · intro c hc
    rw [hsession] at hc
    have := handleRequest_session_header config none auth2 post2 request2 c hc
    simpa [jsTruthyStr] using this

/-- Witness for C6: a 404 on a live session clears it, returns the translated
error, and the follow-up request carries no session header. -/
theorem c6_http_404_clears_session_witness :
    (handleRequest ⟨"https://example.com", 5000⟩ (some "abc")
        (fun _ => Except.ok (GetIdTokenResult.success "tok" 0))
        (fun _ => Except.ok (HttpResponse.error (HttpError.httpError 404 "Not Found" none)))
        (Json.obj [("jsonrpc", Json.str "2.0"), ("id", Json.num 1),
          ("method", Json.str "tools/list")])).session = none
    ∧ (handleRequest ⟨"https://example.com", 5000⟩ (some "abc")
        (fun _ => Except.ok (GetIdTokenResult.success "tok" 0))
        (fun _ => Except.ok (HttpResponse.error (HttpError.httpError 404 "Not Found" none)))
        (Json.obj [("jsonrpc", Json.str "2.0"), ("id", Json.num 1),
          ("method", Json.str "tools/list")])).response
        = createErrorResponseFromHttpError
            (((Json.obj [("jsonrpc", Json.str "2.0"), ("id", Json.num 1),
              ("method", Json.str "tools/list")]).getField "id").getD Json.null)
            (HttpError.httpError 404 "Not Found" none)
    ∧ (handleRequest ⟨"https://example.com", 5000⟩ (some "abc")
        (fun _ => Except.ok (GetIdTokenResult.success "tok" 0))
        (fun _ => Except.ok (HttpResponse.error (HttpError.httpError 404 "Not Found" none)))
        (Json.obj [("jsonrpc", Json.str "2.0"), ("id", Json.num 1),
          ("method", Json.str "tools/list")])).response.errorCode = some (-32601)
    ∧ (∀ c, c ∈ (handleRequest ⟨"https://example.com", 5000⟩
          (handleRequest ⟨"https://example.com", 5000⟩ (some "abc")
            (fun _ => Except.ok (GetIdTokenResult.success "tok" 0))
            (fun _ => Except.ok (HttpResponse.error
              (HttpError.httpError 404 "Not Found" none)))
            (Json.obj [("jsonrpc", Json.str "2.0"), ("id", Json.num 1),
              ("method", Json.str "tools/list")])).session
          (fun _ => Except.ok (GetIdTokenResult.success "tok" 0))
          (fun _ => Except.ok (HttpResponse.error (HttpError.timeout "t")))
          (Json.obj [("jsonrpc", Json.str "2.0"), ("id", Json.num 2),
            ("method", Json.str "tools/call")])).calls →
        lookupHeader c.headers "Mcp-Session-Id" = none) :=
  c6_http_404_clears_session ⟨"https://example.com", 5000⟩ (some "abc")
    (Json.obj [("jsonrpc", Json.str "2.0"), ("id", Json.num 1),
      ("method", Json.str "tools/list")])
    (Json.obj [("jsonrpc", Json.str "2.0"), ("id", Json.num 2),
      ("method", Json.str "tools/call")])
    (fun _ => Except.ok (GetIdTokenResult.success "tok" 0))
    (fun _ => Except.ok (GetIdTokenResult.success "tok" 0))
    (fun _ => Except.ok (HttpResponse.error (HttpError.httpError 404 "Not Found" none)))
    (fun _ => Except.ok (HttpResponse.error (HttpError.timeout "t")))
    "Not Found" none "tok" 0 rfl (fun _ => rfl)

/-! ## Claim C7 -/

/-- C7: only a successful response to the initialize method can set the
session: a truthy session id in its transport headers (under mcp-session-id or
Mcp-Session-Id) is stored and every subsequent request carries it in the
Mcp-Session-Id header; an initialize response with no truthy session header
leaves the session unchanged; transport successes for every other method
never mutate the session. -/
theorem c7_session_set_only_by_initialize (config : ProxyConfig)
    (session : Option String)
    (auth : String → Except String GetIdTokenResult)
    (post : HttpRequestConfig → Except String HttpResponse)
    (request : Json) (token sid : String) (xp : Int) (d : Json) (st : Nat)
    (rh : List (String × String))
    (hauth : auth config.targetUrl = Except.ok (GetIdTokenResult.success token xp))
    (hpost : ∀ c, post c = Except.ok (HttpResponse.success d st rh)) :
    (request.fieldEqStr "method" "initialize" = false →
        (handleRequest config session auth post request).session = session)
    ∧ (request.fieldEqStr "method" "initialize" = true →
        jsTruthyStr (jsOrStr (lookupHeader rh "mcp-session-id")
          (lookupHeader rh "Mcp-Session-Id")) = false →
        (handleRequest config session auth post request).session = session)
    ∧ (request.fieldEqStr "method" "initialize" = true →
        jsOrStr (lookupHeader rh "mcp-session-id") (lookupHeader rh "Mcp-Session-Id")
          = some sid →
        sid ≠ "" →
        (handleRequest config session auth post request).session = some sid)
    ∧ (∀ (auth2 : String → Except String GetIdTokenResult)
         (post2 : HttpRequestConfig → Except String HttpResponse)
         (request2 : Json) (c : HttpRequestConfig),
        sid ≠ "" →
        c ∈ (handleRequest config (some sid) auth2 post2 request2).calls →
        lookupHeader c.headers "Mcp-Session-Id" = some sid) := by
  refine ⟨?_, ?_, ?_, ?_⟩
  · intro hmethod
    cases hv : validateJSONRPCResponse d <;>
      simp [handleRequest, hauth, hpost, hmethod, hv]
  · intro hmethod hfalsy
    cases hjs : jsOrStr (lookupHeader rh "mcp-session-id")
        (lookupHeader rh "Mcp-Session-Id") with
    | none =>
        cases hv : validateJSONRPCResponse d <;>
          simp [handleRequest, hauth, hpost, hmethod, hjs, hv]
    | some v =>
        rw [hjs] at hfalsy
        have hempty : v = "" := by simpa [jsTruthyStr] using hfalsy
        subst hempty
        cases hv : validateJSONRPCResponse d <;>
          simp [handleRequest, hauth, hpost, hmethod, hjs, hv]
  · intro hmethod hsid hne
    cases hv : validateJSONRPCResponse d <;>
      simp [handleRequest, hauth, hpost, hmethod, hsid, hne, setSessionId, hv]
  · intro auth2 post2 request2 c hne hc
    have := handleRequest_session_header config (some sid) auth2 post2 request2 c hc
    simpa [jsTruthyStr, hne] using this

/-- Witness for C7: an initialize response carrying session id "abc" stores
it, a tools/list response does not touch the session, and the next request
carries the stored id. -/
theorem c7_session_set_only_by_initialize_witness :
    ((Json.obj [("jsonrpc", Json.str "2.0"), ("id", Json.num 1),
        ("method", Json.str "initialize")]).fieldEqStr "method" "initialize" = false →
      (handleRequest ⟨"https://example.com", 5000⟩ none
        (fun _ => Except.ok (GetIdTokenResult.success "tok" 0))
        (fun _ => Except.ok (HttpResponse.success
          (Json.obj [("jsonrpc", Json.str "2.0"), ("id", Json.num 1),
            ("result", Json.null)]) 200 [("mcp-session-id", "abc")]))
        (Json.obj [("jsonrpc", Json.str "2.0"), ("id", Json.num 1),
          ("method", Json.str "initialize")])).session = none)
    ∧ ((Json.obj [("jsonrpc", Json.str "2.0"), ("id", Json.num 1),
        ("method", Json.str "initialize")]).fieldEqStr "method" "initialize" = true →
      jsTruthyStr (jsOrStr (lookupHeader [("mcp-session-id", "abc")] "mcp-session-id")
        (lookupHeader [("mcp-session-id", "abc")] "Mcp-Session-Id")) = false →
      (handleRequest ⟨"https://example.com", 5000⟩ none
        (fun _ => Except.ok (GetIdTokenResult.success "tok" 0))
        (fun _ => Except.ok (HttpResponse.success
          (Json.obj [("jsonrpc", Json.str "2.0"), ("id", Json.num 1),
            ("result", Json.null)]) 200 [("mcp-session-id", "abc")]))
        (Json.obj [("jsonrpc", Json.str "2.0"), ("id", Json.num 1),
          ("method", Json.str "initialize")])).session = none)
    ∧ ((Json.obj [("jsonrpc", Json.str "2.0"), ("id", Json.num 1),
        ("method", Json.str "initialize")]).fieldEqStr "method" "initialize" = true →
      jsOrStr (lookupHeader [("mcp-session-id", "abc")] "mcp-session-id")
        (lookupHeader [("mcp-session-id", "abc")] "Mcp-Session-Id") = some "abc" →
      "abc" ≠ "" →
      (handleRequest ⟨"https://example.com", 5000⟩ none
        (fun _ => Except.ok (GetIdTokenResult.success "tok" 0))
        (fun _ => Except.ok (HttpResponse.success
          (Json.obj [("jsonrpc", Json.str "2.0"), ("id", Json.num 1),
            ("result", Json.null)]) 200 [("mcp-session-id", "abc")]))
        (Json.obj [("jsonrpc", Json.str "2.0"), ("id", Json.num 1),
          ("method", Json.str "initialize")])).session = some "abc")
    ∧ (∀ (auth2 : String → Except String GetIdTokenResult)
         (post2 : HttpRequestConfig → Except String HttpResponse)
         (request2 : Json) (c : HttpRequestConfig),
        "abc" ≠ "" →
        c ∈ (handleRequest ⟨"https://example.com", 5000⟩ (some "abc")
            auth2 post2 request2).calls →
        lookupHeader c.headers "Mcp-Session-Id" = some "abc") :=
  c7_session_set_only_by_initialize ⟨"https://example.com", 5000⟩ none
    (fun _ => Except.ok (GetIdTokenResult.success "tok" 0))
    (fun _ => Except.ok (HttpResponse.success
      (Json.obj [("jsonrpc", Json.str "2.0"), ("id", Json.num 1),
        ("result", Json.null)]) 200 [("mcp-session-id", "abc")]))
    (Json.obj [("jsonrpc", Json.str "2.0"), ("id", Json.num 1),
      ("method", Json.str "initialize")])
    "tok" "abc" 0
    (Json.obj [("jsonrpc", Json.str "2.0"), ("id", Json.num 1), ("result", Json.null)])
    200 [("mcp-session-id", "abc")] rfl (fun _ => rfl)

/-! ## Claim C8 -/

/-- C8: for every notification-shaped message (a method key and no id key),
handleMessage returns the original message unchanged for every auth outcome,
every transport outcome and every thrown exception; any message that is
neither a request nor a notification is returned untouched with no call made
and the session unchanged. -/
theorem c8_notification_resilience (config : ProxyConfig) (session : Option String)
    (auth : String → Except String GetIdTokenResult)
    (post : HttpRequestConfig → Except String HttpResponse) (message : Json) :
    (isJSONRPCNotification message = true →
        (handleMessage config session auth post message).response = message)
    ∧ (isJSONRPCRequest message = false → isJSONRPCNotification message = false →
        handleMessage config session auth post message
          = { response := message, session := session, calls := [] }) := by
  constructor
  · intro hnotif
    have hreq : isJSONRPCRequest message = false := by
      simp only [isJSONRPCNotification, Bool.and_eq_true, Bool.not_eq_eq_eq_not,
        Bool.not_true] at hnotif
      simp [isJSONRPCRequest, hnotif.1, hnotif.2]
    simp only [handleMessage, hreq, Bool.false_eq_true, if_false, hnotif, if_true]
    split
    · rfl
    · rfl
    · split <;> rfl
  · intro hreq hnotif
    simp [handleMessage, hreq, hnotif]

/-- Witness for C8: a cancelled-notification message survives an upstream
network failure unchanged, and a response-shaped message passes through. -/
theorem c8_notification_resilience_witness :
    (isJSONRPCNotification (Json.obj [("jsonrpc", Json.str "2.0"),
        ("method", Json.str "notifications/cancelled")]) = true →
      (handleMessage ⟨"https://example.com", 5000⟩ none
        (fun _ => Except.ok (GetIdTokenResult.success "tok" 0))
        (fun _ => Except.ok (HttpResponse.error (HttpError.networkError "down")))
        (Json.obj [("jsonrpc", Json.str "2.0"),
          ("method", Json.str "notifications/cancelled")])).response
        = Json.obj [("jsonrpc", Json.str "2.0"),
            ("method", Json.str "notifications/cancelled")])
    ∧ (isJSONRPCRequest (Json.obj [("jsonrpc", Json.str "2.0"),
          ("method", Json.str "notifications/cancelled")]) = false →
      isJSONRPCNotification (Json.obj [("jsonrpc", Json.str "2.0"),
          ("method", Json.str "notifications/cancelled")]) = false →
      handleMessage ⟨"https://example.com", 5000⟩ none
        (fun _ => Except.ok (GetIdTokenResult.success "tok" 0))
        (fun _ => Except.ok (HttpResponse.error (HttpError.networkError "down")))
        (Json.obj [("jsonrpc", Json.str "2.0"),
          ("method", Json.str "notifications/cancelled")])
        = { response := Json.obj [("jsonrpc", Json.str "2.0"),
              ("method", Json.str "notifications/cancelled")],
            session := none, calls := [] }) :=
  c8_notification_resilience ⟨"https://example.com", 5000⟩ none
    (fun _ => Except.ok (GetIdTokenResult.success "tok" 0))
    (fun _ => Except.ok (HttpResponse.error (HttpError.networkError "down")))
    (Json.obj [("jsonrpc", Json.str "2.0"),
      ("method", Json.str "notifications/cancelled")])

/-! ## Claim C9 -/

/-- C9: for a three-segment dot-delimited token whose second segment decodes
to a payload with a numeric exp claim, the extracted expiry is exp seconds
since the epoch (exp * 1000 in the millisecond Date representation); for any
other token — wrong segment count, empty or undecodable second segment, or a
missing or non-numeric exp — the expiry defaults to exactly 1 hour after
fetch time. -/
theorem c9_token_expiry_extraction (decodePayload : String → Option Json)
    (token : String) (now : Int) :
    (∀ s0 s1 s2 payload e, splitOnDot token = [s0, s1, s2] → s1 ≠ "" →
        decodePayload s1 = some payload →
        payload.getField "exp" = some (Json.num e) →
        extractTokenExpiration decodePayload token now = e * 1000)
    ∧ ((splitOnDot token).length ≠ 3 →
        extractTokenExpiration decodePayload token now = now + 60 * 60 * 1000)
    ∧ (∀ s0 s2, splitOnDot token = [s0, "", s2] →
        extractTokenExpiration decodePayload token now = now + 60 * 60 * 1000)
    ∧ (∀ s0 s1 s2, splitOnDot token = [s0, s1, s2] → decodePayload s1 = none →
        extractTokenExpiration decodePayload token now = now + 60 * 60 * 1000)
    ∧ (∀ s0 s1 s2 payload, splitOnDot token = [s0, s1, s2] →
        decodePayload s1 = some payload →
        (∀ e : Int, payload.getField "exp" ≠ some (Json.num e)) →
        extractTokenExpiration decodePayload token now = now + 60 * 60 * 1000) := by
  refine ⟨?_, ?_, ?_, ?_, ?_⟩
  · intro s0 s1 s2 payload e hsplit hne hdec hexp
    have hbe : (s1 == "") = false := by simp [hne]
    simp [extractTokenExpiration, hsplit, hbe, hdec, hexp]
  · intro hlen
    have hbe : ((splitOnDot token).length != 3) = true := by
      simpa using hlen
    simp [extractTokenExpiration, hbe]
  · intro s0 s2 hsplit
    simp [extractTokenExpiration, hsplit]
  · intro s0 s1 s2 hsplit hdec
    by_cases hne : s1 = ""
    · subst hne
      simp [extractTokenExpiration, hsplit]
    · have hbe : (s1 == "") = false := by simp [hne]
      simp [extractTokenExpiration, hsplit, hbe, hdec]
  · intro s0 s1 s2 payload hsplit hdec hexp
    by_cases hne : s1 = ""
    · subst hne
      simp [extractTokenExpiration, hsplit]
    · have hbe : (s1 == "") = false := by simp [hne]
      cases he : payload.getField "exp" with
      | none => simp [extractTokenExpiration, hsplit, hbe, hdec, he]
      | some v =>
          cases v with
          | num e => exact absurd he (hexp e)
          | null => simp [extractTokenExpiration, hsplit, hbe, hdec, he]
          | bool b => simp [extractTokenExpiration, hsplit, hbe, hdec, he]
          | str s => simp [extractTokenExpiration, hsplit, hbe, hdec, he]
          | arr xs => simp [extractTokenExpiration, hsplit, hbe, hdec, he]
          | obj fields => simp [extractTokenExpiration, hsplit, hbe, hdec, he]

/-- Witness for C9 at a concrete three-segment token with exp 1700000000, and
a malformed token with no dot. -/
theorem c9_token_expiry_extraction_witness :
    (splitOnDot "hd.pl.sg" = ["hd", "pl", "sg"])
    ∧ ("pl" ≠ "")
    ∧ extractTokenExpiration
        (fun p => if p == "pl" then some (Json.obj [("exp", Json.num 1700000000)]) else none)
        "hd.pl.sg" 5000
        = 1700000000 * 1000
    ∧ ((splitOnDot "opaque-token").length ≠ 3)
    ∧ extractTokenExpiration
        (fun p => if p == "pl" then some (Json.obj [("exp", Json.num 1700000000)]) else none)
        "opaque-token" 5000
        = 5000 + 60 * 60 * 1000 :=
  ⟨by decide, by decide,
   (c9_token_expiry_extraction
      (fun p => if p == "pl" then some (Json.obj [("exp", Json.num 1700000000)]) else none)
      "hd.pl.sg" 5000).1 "hd" "pl" "sg"
      (Json.obj [("exp", Json.num 1700000000)]) 1700000000 (by decide) (by decide) rfl rfl,
   by decide,
   (c9_token_expiry_extraction
      (fun p => if p == "pl" then some (Json.obj [("exp", Json.num 1700000000)]) else none)
      "opaque-token" 5000).2.1 (by decide)⟩

/-! ## Claim C10 -/

/-- C10: with a target URL whose scheme is not https (http:// included), the
token manager rejects the audience with invalid-audience, so every
handleRequest invocation wired to it fails before any HTTP call with an
"Authentication failed: " error of code -32603; there is no authentication
bypass for plain-HTTP targets. -/
theorem c10_non_https_target_auth_rejected (config : ProxyConfig)
    (session : Option String)
    (post : HttpRequestConfig → Except String HttpResponse) (request : Json)
    (decodePayload : String → Option Json) (cache : TokenCache) (now : Int)
    (provider : ProviderOutcome)
    (hscheme : urlScheme config.targetUrl ≠ some "https") :
    (getIdToken decodePayload cache config.targetUrl now provider).result
      = GetIdTokenResult.error (AuthError.invalidAudience
          ("Invalid audience: " ++ config.targetUrl ++ ". Must be a valid HTTPS URL."))
    ∧ (handleRequest config session
        (fun aud => Except.ok (getIdToken decodePayload cache aud now provider).result)
        post request).calls = []
    ∧ (handleRequest config session
        (fun aud => Except.ok (getIdToken decodePayload cache aud now provider).result)
        post request).response.errorCode = some (-32603)
    ∧ ∃ rest, (handleRequest config session
        (fun aud => Except.ok (getIdToken decodePayload cache aud now provider).result)
        post request).response.errorMessage
        = some ("Authentication failed: " ++ rest) := by
  have hvalid : isValidAudience config.targetUrl = false := by
    simp [isValidAudience, hscheme]
  have hresult : (getIdToken decodePayload cache config.targetUrl now provider).result
      = GetIdTokenResult.error (AuthError.invalidAudience
          ("Invalid audience: " ++ config.targetUrl ++ ". Must be a valid HTTPS URL.")) := by
    simp [getIdToken, hvalid]
  refine ⟨hresult, ?_, ?_,
    ("Invalid audience: " ++ config.targetUrl ++ ". Must be a valid HTTPS URL."), ?_⟩ <;>
    simp [handleRequest, hresult, createAuthErrorResponse, createErrorResponse,
      authErrorToJson, Json.truthy, AuthError.message, Json.errorCode, Json.errorMessage,
      Json.errorField, Json.getField, lookupField]

/-- Witness for C10 at the concrete plain-HTTP target http://example.com. -/
theorem c10_non_https_target_auth_rejected_witness :
    (getIdToken (fun _ => none) [] "http://example.com" 0
        (ProviderOutcome.resolved (Json.str "tok"))).result
      = GetIdTokenResult.error (AuthError.invalidAudience
          ("Invalid audience: " ++ "http://example.com" ++ ". Must be a valid HTTPS URL."))
    ∧ (handleRequest ⟨"http://example.com", 5000⟩ none
        (fun aud => Except.ok (getIdToken (fun _ => none) [] aud 0
          (ProviderOutcome.resolved (Json.str "tok"))).result)
        (fun _ => Except.ok (HttpResponse.error (HttpError.timeout "t")))
        (Json.obj [("jsonrpc", Json.str "2.0"), ("id", Json.num 1),
          ("method", Json.str "tools/list")])).calls = []
    ∧ (handleRequest ⟨"http://example.com", 5000⟩ none
        (fun aud => Except.ok (getIdToken (fun _ => none) [] aud 0
          (ProviderOutcome.resolved (Json.str "tok"))).result)
        (fun _ => Except.ok (HttpResponse.error (HttpError.timeout "t")))
        (Json.obj [("jsonrpc", Json.str "2.0"), ("id", Json.num 1),
          ("method", Json.str "tools/list")])).response.errorCode = some (-32603)
    ∧ ∃ rest, (handleRequest ⟨"http://example.com", 5000⟩ none
        (fun aud => Except.ok (getIdToken (fun _ => none) [] aud 0
          (ProviderOutcome.resolved (Json.str "tok"))).result)
        (fun _ => Except.ok (HttpResponse.error (HttpError.timeout "t")))
        (Json.obj [("jsonrpc", Json.str "2.0"), ("id", Json.num 1),
          ("method", Json.str "tools/list")])).response.errorMessage
        = some ("Authentication failed: " ++ rest) :=
  c10_non_https_target_auth_rejected ⟨"http://example.com", 5000⟩ none
    (fun _ => Except.ok (HttpResponse.error (HttpError.timeout "t")))
    (Json.obj [("jsonrpc", Json.str "2.0"), ("id", Json.num 1),
      ("method", Json.str "tools/list")])
    (fun _ => none) [] 0 (ProviderOutcome.resolved (Json.str "tok")) (by decide)

end McpGcloudAdc
